import Mathlib

/-!
Verification of the bihelix-rgb-cli repository against its specification.

The repository (6 Rust source files) is a CLI front-end over the `rgbstd`
RGB smart-contract libraries.  The files under `src/` embedded here are:
  - `src/cmds/runtime.rs` — the `Runtime` wrapper over `rgbstd`'s `Stock`
    (load, import_contract, accept_transfer, the empty `Drop` impl);
  - `src/cmds/rgb.rs`     — `handle_rgb_subcommand` (import/export/issue/
    inspect/validate/accept/invoice branches);
  - `src/cmds/key.rs`     — `handle_key_subcommand` (mnemonic generation).

Machine integers are modelled as `Nat`; content-derived identifiers,
serialized contents and character codes are likewise `Nat`s; file bytes are
`List Nat`.  Fallible Rust code returning `Result` is modelled with
`Except`; code that can also `panic!` / `todo!` / `.expect(..)` is modelled
with the three-valued `Outcome` type below, whose `crash` constructor marks
a Rust panic (an abort, distinct from a returned error).

Where the behaviour that decides a claim lives in the external `rgbstd`
crate rather than under `src/` (the internals of `Stock::import_*`,
`Stock::accept_transfer`, invoice encoding/parsing), the corresponding
definition carries a doc comment starting `Modelled from the spec:` and
follows the specification's words; everything else is translated from the
source files.
-/

/-- Validation status produced by the validation engine
(`rgb::validation::Status`): a list of error (failure) codes and a list of
warning codes.  `Valid` corresponds to both lists empty,
`Valid-with-warnings` to failures empty, `Invalid` to a nonempty failure
list. -/
structure ValidationStatus where
  failures : List Nat
  warnings : List Nat
deriving DecidableEq, Repr

/-- Error taxonomy of the spec (§7) / `RuntimeError` in
`src/cmds/runtime.rs`.  `invalidConsignment` carries the non-valid
validation status, as `RuntimeError::InvalidConsignment(validation::Status)`
does. -/
inductive RgbError where
  | conflict
  | corrupt
  | notFound
  | unsupported
  | serialization
  | invalidConsignment (status : ValidationStatus)
deriving DecidableEq, Repr

/-- Outcome of a CLI operation: a returned value, a returned typed error,
or a Rust panic (`todo!`, `panic!`, `.expect(..)`, `.unwrap()`), which
aborts the process instead of returning. -/
inductive Outcome (α : Type) where
  | ok (a : α)
  | err (e : RgbError)
  | crash
deriving DecidableEq, Repr

/-- Whether the outcome is a panic. -/
def Outcome.isCrash {α : Type} : Outcome α → Bool
  | .crash => true
  | _ => false

/-- Whether the outcome is a returned typed error. -/
def Outcome.isErr {α : Type} : Outcome α → Bool
  | .err _ => true
  | _ => false

/-- Whether the outcome is a success. -/
def Outcome.isOk {α : Type} : Outcome α → Bool
  | .ok _ => true
  | _ => false

/-- A state transition of a transfer consignment: its content-derived
transition identifier plus the allocations (seal, amount) it creates. -/
structure Transition where
  id : Nat
  allocs : List (Nat × Nat)
deriving DecidableEq, Repr

/-- A transfer consignment after validation: its transitions together with
the validation status computed for it (as `rgbstd`'s `Transfer` carries its
`validation_status()` after `validate`). -/
structure Transfer where
  transitions : List Transition
  status : ValidationStatus
deriving DecidableEq, Repr

/-- The in-memory stash (`rgbstd::persistence::Stock`): association tables
from content-derived ids to contents for schemata, interfaces, interface
implementations and contracts, plus accepted transition ids, allocations,
and stored seal-blinding secrets. -/
structure Stock where
  schemata : List (Nat × Nat)
  ifaces : List (Nat × Nat)
  iimpls : List (Nat × Nat)
  contracts : List (Nat × Nat)
  transitions : List Nat
  allocations : List (Nat × Nat)
  secrets : List Nat
deriving DecidableEq, Repr

/-- `Stock::default()`: the empty stash. -/
def Stock.empty : Stock :=
  { schemata := [], ifaces := [], iimpls := [], contracts := []
    transitions := [], allocations := [], secrets := [] }

/-- Flatten an association table into a byte list (length prefix followed
by the key/value pairs). -/
def serPairs (l : List (Nat × Nat)) : List Nat :=
  l.length :: l.foldr (fun p acc => p.1 :: p.2 :: acc) []

/-- Serialized (on-disk) form of a stock, as written to `stock.dat`.  The
strict-encoding details are external to the repository; what matters for
the claims is that serialization is a function of the stock value. -/
def serializeStock (s : Stock) : List Nat :=
  serPairs s.schemata ++ serPairs s.ifaces ++ serPairs s.iimpls ++
  serPairs s.contracts ++ (s.transitions.length :: s.transitions) ++
  serPairs s.allocations ++ (s.secrets.length :: s.secrets)

/-- Association lookup with `Nat` keys (first match wins), mirroring map
lookup in the stock's registries. -/
def natAssoc {α : Type} (k : Nat) : List (Nat × α) → Option α
  | [] => none
  | (k', v) :: rest => if k' = k then some v else natAssoc k rest

/-- Modelled from the spec: the additive-only import discipline of the
external `rgbstd` `Stock` registries (`import_schema` / `import_iface` /
`import_iface_impl` / `import_contract` are not under `src/`): importing an
id already present with identical content is a no-op; an id present with
different content is a `Conflict` error and is never overwritten; a fresh
id is inserted. -/
def importEntry (tbl : List (Nat × Nat)) (id content : Nat) :
    Except RgbError (List (Nat × Nat)) :=
  match natAssoc id tbl with
  | none => .ok ((id, content) :: tbl)
  | some c => if c = content then .ok tbl else .error .conflict

/-- `Stock::import_schema` on the modelled stash: on error the stash is
returned unchanged (the Rust `&mut self` is untouched on the error path). -/
def Stock.importSchema (s : Stock) (id content : Nat) :
    Except RgbError Unit × Stock :=
  match importEntry s.schemata id content with
  | .ok t => (.ok (), { s with schemata := t })
  | .error e => (.error e, s)

/-- `Stock::import_iface` on the modelled stash. -/
def Stock.importIface (s : Stock) (id content : Nat) :
    Except RgbError Unit × Stock :=
  match importEntry s.ifaces id content with
  | .ok t => (.ok (), { s with ifaces := t })
  | .error e => (.error e, s)

/-- `Stock::import_iface_impl` on the modelled stash. -/
def Stock.importIfaceImpl (s : Stock) (id content : Nat) :
    Except RgbError Unit × Stock :=
  match importEntry s.iimpls id content with
  | .ok t => (.ok (), { s with iimpls := t })
  | .error e => (.error e, s)

/-- `Stock::import_contract` on the modelled stash. -/
def Stock.importContract (s : Stock) (id content : Nat) :
    Except RgbError Unit × Stock :=
  match importEntry s.contracts id content with
  | .ok t => (.ok (), { s with contracts := t })
  | .error e => (.error e, s)

/-- `Stock::store_seal_secret`: records the blinding secret of a freshly
generated blinded seal in the stash. -/
def Stock.storeSealSecret (s : Stock) (secret : Nat) :
    Except RgbError Unit × Stock :=
  (.ok (), { s with secrets := secret :: s.secrets })

/-- Apply one state transition to the stash: if its id is already present
the transition is skipped, otherwise its id is recorded and its
allocations appended. -/
def applyTransition (s : Stock) (tr : Transition) : Stock :=
  if tr.id ∈ s.transitions then s
  else { s with transitions := tr.id :: s.transitions
                allocations := s.allocations ++ tr.allocs }

/-- Apply all transitions of a transfer in order. -/
def applyTransfer (s : Stock) (t : Transfer) : Stock :=
  t.transitions.foldl applyTransition s

/-- Modelled from the spec: `Stock::accept_transfer` of the external
`rgbstd` crate (not under `src/`; `Runtime::accept_transfer` in
`src/cmds/runtime.rs` only delegates to it).  Per spec §4.2/§4.3: if the
transfer's validation status contains errors, the acceptance is rejected —
the non-valid status is returned as the rejection and the stash is not
mutated; `force` lets a caller proceed past warnings only, never past
errors; otherwise every transition is applied, skipping transition ids
already present in the stash. -/
def Stock.acceptTransfer (s : Stock) (t : Transfer) (force : Bool) :
    Except RgbError ValidationStatus × Stock :=
  if t.status.failures ≠ [] then
    (.error (.invalidConsignment t.status), s)
  else if t.status.warnings ≠ [] ∧ force = false then
    (.error (.invalidConsignment t.status), s)
  else
    (.ok t.status, applyTransfer s t)

/-- System state seen by one CLI invocation: the in-memory stock held by
`Runtime` plus the contents of the on-disk `stock.dat` file (`none` when
the file does not exist). -/
structure DiskState where
  mem : Stock
  disk : Option (List Nat)
deriving DecidableEq, Repr

/-- `Runtime::load` (src/cmds/runtime.rs:124-153): if the stock file does
not exist, a default (empty) stock is created and stored to disk before
the function returns (`stock.store(&stock_path)?`); otherwise the file is
deserialized by `Stock::load`, whose failure propagates via `?` as a fatal
error.  The strict-deserialization function itself lives in the external
`rgbstd`/`rgbfs` crates, so it is taken as a parameter `deser`. -/
def Runtime.load (deser : List Nat → Except RgbError Stock)
    (file : Option (List Nat)) : Except RgbError DiskState :=
  match file with
  | none => .ok { mem := Stock.empty, disk := some (serializeStock Stock.empty) }
  | some b =>
    match deser b with
    | .ok s => .ok { mem := s, disk := some b }
    | .error e => .error e

/-- `Runtime::import_contract` (src/cmds/runtime.rs:155-166) at the
system-state level: it delegates to `Stock::import_contract` on the
in-memory stock and performs no disk write — no code path in
`src/cmds/runtime.rs` or `src/cmds/rgb.rs` calls `stock.store` after a
mutation. -/
def Runtime.importContractOp (st : DiskState) (id content : Nat) :
    Except RgbError Unit × DiskState :=
  ((Stock.importContract st.mem id content).1,
   { mem := (Stock.importContract st.mem id content).2, disk := st.disk })

/-- `runtime.import_schema` as reached through `Deref` from the Import
branch of `handle_rgb_subcommand`: mutates memory only, no disk write. -/
def Runtime.importSchemaOp (st : DiskState) (id content : Nat) :
    Except RgbError Unit × DiskState :=
  ((Stock.importSchema st.mem id content).1,
   { mem := (Stock.importSchema st.mem id content).2, disk := st.disk })

/-- `runtime.import_iface` from the Import branch: memory only. -/
def Runtime.importIfaceOp (st : DiskState) (id content : Nat) :
    Except RgbError Unit × DiskState :=
  ((Stock.importIface st.mem id content).1,
   { mem := (Stock.importIface st.mem id content).2, disk := st.disk })

/-- `runtime.import_iface_impl` from the Import branch: memory only. -/
def Runtime.importIfaceImplOp (st : DiskState) (id content : Nat) :
    Except RgbError Unit × DiskState :=
  ((Stock.importIfaceImpl st.mem id content).1,
   { mem := (Stock.importIfaceImpl st.mem id content).2, disk := st.disk })

/-- `Runtime::accept_transfer` (src/cmds/runtime.rs:168-180) at the
system-state level: delegates to `Stock::accept_transfer`, no disk
write. -/
def Runtime.acceptTransferOp (st : DiskState) (t : Transfer) (force : Bool) :
    Except RgbError ValidationStatus × DiskState :=
  ((Stock.acceptTransfer st.mem t force).1,
   { mem := (Stock.acceptTransfer st.mem t force).2, disk := st.disk })

/-- `runtime.store_seal_secret` from the Invoice branch
(src/cmds/rgb.rs:692-694): memory only, no disk write. -/
def Runtime.storeSealSecretOp (st : DiskState) (secret : Nat) :
    Except RgbError Unit × DiskState :=
  ((Stock.storeSealSecret st.mem secret).1,
   { mem := (Stock.storeSealSecret st.mem secret).2, disk := st.disk })

/-- `impl Drop for Runtime` (src/cmds/runtime.rs:183-192): the entire body
is commented out, so dropping the runtime performs no persistence — the
system state is untouched at process teardown. -/
def Runtime.dropRuntime (st : DiskState) : DiskState := st

/-- YAML values, as far as the Issue branch of `handle_rgb_subcommand`
inspects them (`serde_yaml::Value`): strings, unsigned integers, mappings
with string keys, and an `other` constructor covering every remaining YAML
shape (null, bool, float, sequence, non-string keys), on which every
`as_str`/`as_u64`/`as_mapping` accessor of the source fails. -/
inductive Yaml where
  | str (s : String)
  | num (n : Nat)
  | map (kvs : List (String × Yaml))
  | other

/-- Association lookup with `String` keys (first match wins). -/
def strAssoc {α : Type} (k : String) : List (String × α) → Option α
  | [] => none
  | (k', v) :: rest => if k' = k then some v else strAssoc k rest

/-- The YAML key `interface` of a contract-issuance document. -/
def interfaceKey : String := "interface"

/-- The YAML key `seal` of an assignment entry. -/
def sealKey : String := "seal"

/-- The YAML key `amount` of a fungible assignment entry. -/
def amountKey : String := "amount"

/-- The owned-state kinds of `rgbstd::contract::StateType`. -/
inductive StateType where
  | void
  | fungible
  | structured
  | attachment
deriving DecidableEq, Repr

/-- The fields of the bound interface implementation consulted by the
Issue branch: global-state and assignment field names mapped to
schema-internal state-type ids (`iface_impl.global_state` /
`iface_impl.assignments`). -/
structure IfaceImplInfo where
  globalIds : List (String × Nat)
  assignIds : List (String × Nat)

/-- The schema tables consulted by the Issue branch:
`schema.global_types` (state-type id to semantic type id) and
`schema.owned_types` (state-type id to owned-state kind). -/
structure SchemaModel where
  globalSemIds : List (Nat × Nat)
  ownedTypes : List (Nat × StateType)

/-- Extraction of the `interface` key from the issuance document
(src/cmds/rgb.rs:424-432): a non-mapping root, a missing `interface` key,
or a non-string interface name each hit an `.expect(..)` and panic. -/
def issueIfaceName (doc : Yaml) : Outcome String :=
  match doc with
  | .map kvs =>
    match strAssoc interfaceKey kvs with
    | some (.str s) => .ok s
    | some _ => .crash
    | none => .crash
  | _ => .crash

/-- Processing of one `globals` entry (src/cmds/rgb.rs:465-501).  The
interface-spec rename (`unwrap_or(name)`, never panicking) is elided.  An
unknown field name hits `panic!("unknown type name ..")`; a missing
`schema.global_types` entry hits `.expect("invalid schema implementation")`;
a value failing `types.typify` hits `.expect("global type doesn't match
type definition")`.  `tys` stands for the external strict-types
`typify`-and-serialize step, returning the serialized bytes on success. -/
def processGlobal (impl : IfaceImplInfo) (sch : SchemaModel)
    (tys : Yaml → Nat → Option (List Nat)) (name : String) (val : Yaml) :
    Outcome (String × List Nat) :=
  match strAssoc name impl.globalIds with
  | none => .crash
  | some stId =>
    match natAssoc stId sch.globalSemIds with
    | none => .crash
    | some semId =>
      match tys val semId with
      | none => .crash
      | some ser => .ok (name, ser)

/-- The `state_schema.state_type()` match of the Issue branch
(src/cmds/rgb.rs:544-559): `Void`, `Structured` and `Attachment` are
`todo!()` (panic); `Fungible` reads the `amount` key, panicking via
`.expect(..)` when it is missing or not an integer. -/
def addAssignState (stType : StateType) (avs : List (String × Yaml))
    (name : String) (txid vout : Nat) : Outcome (String × Nat × Nat × Nat) :=
  match stType with
  | .void => .crash
  | .structured => .crash
  | .attachment => .crash
  | .fungible =>
    match strAssoc amountKey avs with
    | none => .crash
    | some (.num a) => .ok (name, txid, vout, a)
    | some _ => .crash

/-- Processing of one `assignments` entry (src/cmds/rgb.rs:509-559): an
unknown field name, a missing schema owned-type entry, a non-mapping
value, a missing or non-string `seal` key, and an unparsable seal string
each hit an `.expect(..)` and panic; `parseSeal` stands for the external
`OutputSeal::from_str`, returning (txid, vout) on success. -/
def processAssignment (impl : IfaceImplInfo) (sch : SchemaModel)
    (parseSeal : String → Option (Nat × Nat)) (name : String) (val : Yaml) :
    Outcome (String × Nat × Nat × Nat) :=
  match strAssoc name impl.assignIds with
  | none => .crash
  | some stId =>
    match natAssoc stId sch.ownedTypes with
    | none => .crash
    | some stType =>
      match val with
      | .map avs =>
        match strAssoc sealKey avs with
        | none => .crash
        | some (.str sealS) =>
          match parseSeal sealS with
          | none => .crash
          | some (txid, vout) => addAssignState stType avs name txid vout
        | some _ => .crash
      | _ => .crash

/-- RGB data bundles distinguished by `UniversalBindle` in the Import
branch; a transfer bundle carries the (not yet accepted) transfer. -/
inductive UniversalBindle where
  | iface (id content : Nat)
  | schema (id content : Nat)
  | iimpl (id content : Nat)
  | contract (id content : Nat)
  | transfer (t : Transfer)
deriving DecidableEq, Repr

/-- Map a runtime call's `Except` result into a CLI outcome: the Import
branch turns each `Err` into an `anyhow` error returned to the caller
(`.map_err(|err| anyhow!(..))?`). -/
def liftRt {α : Type} (p : Except RgbError α × DiskState) :
    Outcome α × DiskState :=
  (match p.1 with
   | .ok a => .ok a
   | .error e => .err e, p.2)

/-- The per-bundle dispatch of the Import branch
(src/cmds/rgb.rs:242-285): interfaces, schemata, implementations and
contracts are imported into the stash (the contract after an external
validation step, elided here); a `Transfer` bundle is `todo!()` — a
panic.  The contract-id/content pair stands for the validated contract. -/
def importBindle (b : UniversalBindle) (st : DiskState) :
    Outcome Unit × DiskState :=
  match b with
  | .iface i c => liftRt (Runtime.importIfaceOp st i c)
  | .schema i c => liftRt (Runtime.importSchemaOp st i c)
  | .iimpl i c => liftRt (Runtime.importIfaceImplOp st i c)
  | .contract i c => liftRt (Runtime.importContractOp st i c)
  | .transfer _ => (.crash, st)

/-- The Import command (src/cmds/rgb.rs:236-288): with `armored = true`
the branch is `todo!()` — a panic before the file is even read; otherwise
the file is parsed into a bundle (`UniversalBindle::load_file`, external —
taken as the parameter `parse`, whose failure is a returned error) and
dispatched. -/
def handleImportCmd (parse : List Nat → Except RgbError UniversalBindle)
    (armored : Bool) (file : List Nat) (st : DiskState) :
    Outcome Unit × DiskState :=
  if armored then (.crash, st)
  else
    match parse file with
    | .error e => (.err e, st)
    | .ok b => importBindle b st

/-- The text formats of the Inspect command (`InspectFormat`). -/
inductive InspectFormat where
  | yaml
  | toml
  | json
  | debug
  | contractum
deriving DecidableEq, Repr

/-- The format dispatch of the Inspect branch (src/cmds/rgb.rs:589-599):
the four implemented renderings succeed (their serde serialization
failures are external and elided); `Contractum` is
`todo!("contractum representation")` — a panic. -/
def inspectRender (fmt : InspectFormat) : Outcome Unit :=
  match fmt with
  | .yaml => .ok ()
  | .toml => .ok ()
  | .json => .ok ()
  | .debug => .ok ()
  | .contractum => .crash

/-- The body-wrapping loop of the armored Export branch
(src/cmds/rgb.rs:319-325) with an explicit fuel argument: while at least
64 characters remain, split off a 64-character line; the final `writeln!`
emits the remainder (possibly empty) as the last body line. -/
def wrap64Go : Nat → List Nat → List (List Nat)
  | 0, s => [s]
  | fuel + 1, s =>
    if 64 ≤ s.length then s.take 64 :: wrap64Go fuel (s.drop 64)
    else [s]

/-- Body wrapping of the armored export: the loop consumes 64 characters
per iteration, so a fuel of the input length suffices to reproduce the
source's `while str_ref.len() >= 64` loop exactly. -/
def wrap64 (s : List Nat) : List (List Nat) :=
  wrap64Go s.length s

/-- The armor frame title line `-----BEGIN RGB CONTRACT-----`. -/
def beginStr : String := "-----BEGIN RGB CONTRACT-----"

/-- The armor frame closing line `-----END RGB CONTRACT-----`. -/
def endStr : String := "-----END RGB CONTRACT-----"

/-- Character codes of a string, used for the armor frame lines. -/
def lineCodes (s : String) : List Nat := s.toList.map Char.toNat

/-- Character codes of the BEGIN marker line. -/
def beginMarker : List Nat := lineCodes beginStr

/-- Character codes of the END marker line. -/
def endMarker : List Nat := lineCodes endStr

/-- The armored Export branch (src/cmds/rgb.rs:299-327) as the list of
lines it writes: the BEGIN marker, the `Id:` header line, the optional
`Mnemonic:`/extra-header/`Signed-By:` lines (elided — `idLine` stands for
the whole header block's single mandatory line), a blank line, the base64
body wrapped at 64 characters (`b64` stands for the external
`base64::encode` applied to the strict-serialized bundle bytes), then the
final `writeln!(f, "\n-----END ..")`, which emits a blank line followed by
the END marker. -/
def armorExport (b64 : List Nat → List Nat) (idLine : List Nat)
    (bin : List Nat) : List (List Nat) :=
  beginMarker :: idLine :: [] :: ((wrap64 (b64 bin) ++ [[]]) ++ [endMarker])

/-- Join the exported lines into the produced text file's bytes, separating
lines with the newline character (code 10) as `writeln!` does. -/
def unlines (ls : List (List Nat)) : List Nat :=
  ls.foldr (fun l acc => l ++ 10 :: acc) []

/-- Mnemonic word-count levels of `bdk::keys::bip39::WordCount` used by the
key Generate branch. -/
inductive WordCount where
  | words12
  | words24
deriving DecidableEq, Repr

/-- The `word_count` match of the key Generate branch
(src/cmds/key.rs:59-62): `12` selects a 12-word mnemonic and every other
value falls through the wildcard arm to a 24-word mnemonic; no arm rejects
the argument. -/
def mnemonicTypeFor (wordCount : Nat) : WordCount :=
  match wordCount with
  | 12 => .words12
  | _ => .words24

/-- Number of words in a generated mnemonic of the given level. -/
def WordCount.words : WordCount → Nat
  | .words12 => 12
  | .words24 => 24

/-- Number of words of the mnemonic generated for a `--entropy` argument. -/
def generatedMnemonicWords (wordCount : Nat) : Nat :=
  (mnemonicTypeFor wordCount).words

/-- Character code of a decimal digit. -/
def digitCode (d : Nat) : Nat := 48 + d

/-- Decimal rendering of a number as character codes, most significant
digit first. -/
def natChars (n : Nat) : List Nat :=
  ((Nat.digits 10 n).map digitCode).reverse

/-- Parse character codes back into a number (inverse of `natChars`). -/
def charsNat (cs : List Nat) : Nat :=
  Nat.ofDigits 10 (cs.reverse.map fun c => c - 48)

/-- The invoice field separator `/` (character code 47). -/
def sepCode : Nat := 47

/-- Split a character-code list at every separator occurrence. -/
def splitSep (sep : Nat) : List Nat → List (List Nat)
  | [] => [[]]
  | c :: rest =>
    if c = sep then [] :: splitSep sep rest
    else
      match splitSep sep rest with
      | [] => [[c]]
      | g :: gs => (c :: g) :: gs

/-- Modelled from the spec: the invoice string produced by the Invoice
branch via the external `RgbInvoiceBuilder` (src/cmds/rgb.rs:698-703) —
"a self-describing, round-trippable string encoding all four fields".  The
string is modelled as its character codes; the four fields (contract id,
interface name, amount, blinded beneficiary seal) appear as
separator-delimited segments, numbers in decimal.  Interface names are
identifiers, so they never contain the separator character. -/
def buildInvoice (contractId : Nat) (ifaceName : List Nat) (amount : Nat)
    (beneficiarySeal : Nat) : List Nat :=
  natChars contractId ++ sepCode ::
    (ifaceName ++ sepCode :: (natChars amount ++ sepCode :: natChars beneficiarySeal))

/-- Modelled from the spec: parsing an invoice string back into its four
fields (the parser lives in `rgbstd::invoice`, external to the
repository). -/
def parseInvoice (s : List Nat) : Option (Nat × List Nat × Nat × Nat) :=
  match splitSep sepCode s with
  | [a, b, c, d] => some (charsNat a, b, charsNat c, charsNat d)
  | _ => none

/-- Sample global-state field name used in concrete evaluations. -/
def gName : String := "assetName"

/-- Sample assignment field name used in concrete evaluations. -/
def aName : String := "beneficiary"

/-- Sample interface-implementation binding used in concrete evaluations. -/
def implSample : IfaceImplInfo :=
  { globalIds := [(gName, 3)], assignIds := [(aName, 4)] }

/-- Empty interface-implementation binding used in concrete evaluations. -/
def implNone : IfaceImplInfo := { globalIds := [], assignIds := [] }

/-- Sample schema tables used in concrete evaluations. -/
def schSample : SchemaModel :=
  { globalSemIds := [(3, 9)], ownedTypes := [(4, StateType.fungible)] }

/-- A strict-types check that rejects every value, used in concrete
evaluations. -/
def tysNone : Yaml → Nat → Option (List Nat) := fun _ _ => none

/-- A seal parser that rejects every string, used in concrete
evaluations. -/
def psNone : String → Option (Nat × Nat) := fun _ => none

/-- A bundle parser that fails on every file, used in concrete
evaluations. -/
def parseFail : List Nat → Except RgbError UniversalBindle :=
  fun _ => Except.error RgbError.serialization

/-- A sample strict-deserializer for concrete evaluations of
`Runtime.load`: accepts only the empty byte list. -/
def deserSample : List Nat → Except RgbError Stock :=
  fun b => if b = [] then Except.ok Stock.empty else Except.error RgbError.corrupt

lemma mem_applyTransition_of_mem (s : Stock) (tr : Transition) (a : Nat)
    (h : a ∈ s.transitions) : a ∈ (applyTransition s tr).transitions := by
  unfold applyTransition
  split
  · exact h
  · exact List.mem_cons_of_mem _ h

lemma id_mem_applyTransition (s : Stock) (tr : Transition) :
    tr.id ∈ (applyTransition s tr).transitions := by
  unfold applyTransition
  split
  · assumption
  · exact List.mem_cons_self _ _

lemma mem_foldl_applyTransition_of_mem (l : List Transition) (s : Stock)
    (a : Nat) (h : a ∈ s.transitions) :
    a ∈ (l.foldl applyTransition s).transitions := by
  induction l generalizing s with
  | nil => exact h
  | cons tr rest ih =>
    exact ih _ (mem_applyTransition_of_mem s tr a h)

lemma mem_foldl_applyTransition_all (l : List Transition) (s : Stock) :
    ∀ tr ∈ l, tr.id ∈ (l.foldl applyTransition s).transitions := by
  induction l generalizing s with
  | nil => intro tr h; cases h
  | cons hd rest ih =>
    intro tr h
    rcases List.mem_cons.mp h with rfl | h
    · exact mem_foldl_applyTransition_of_mem rest _ _
        (id_mem_applyTransition s _)
    · exact ih (applyTransition s hd) tr h

lemma foldl_applyTransition_noop (l : List Transition) (s : Stock)
    (h : ∀ tr ∈ l, tr.id ∈ s.transitions) :
    l.foldl applyTransition s = s := by
  induction l with
  | nil => rfl
  | cons hd rest ih =>
    have hhd : applyTransition s hd = s := by
      unfold applyTransition
      rw [if_pos (h hd (List.mem_cons_self _ _))]
    rw [List.foldl_cons, hhd]
    exact ih fun tr htr => h tr (List.mem_cons_of_mem _ htr)

lemma applyTransfer_idem (s : Stock) (t : Transfer) :
    applyTransfer (applyTransfer s t) t = applyTransfer s t := by
  unfold applyTransfer
  exact foldl_applyTransition_noop _ _ (mem_foldl_applyTransition_all _ _)

lemma applyTransfer_noop (s : Stock) (t : Transfer)
    (h : ∀ tr ∈ t.transitions, tr.id ∈ s.transitions) :
    applyTransfer s t = s :=
  foldl_applyTransition_noop _ _ h

lemma charsNat_natChars (n : Nat) : charsNat (natChars n) = n := by
  unfold charsNat natChars
  rw [List.reverse_reverse, List.map_map]
  have hfun : ((fun c => c - 48) ∘ digitCode) = id := by
    funext d
    show 48 + d - 48 = d
    omega
  rw [hfun, List.map_id, Nat.ofDigits_digits]

lemma natChars_no_sep (n : Nat) : ∀ c ∈ natChars n, c ≠ sepCode := by
  intro c hc
  unfold natChars at hc
  rw [List.mem_reverse, List.mem_map] at hc
  obtain ⟨d, _, rfl⟩ := hc
  show ¬48 + d = 47
  omega

lemma splitSep_ne_nil (sep : Nat) (l : List Nat) : splitSep sep l ≠ [] := by
  cases l with
  | nil => simp [splitSep]
  | cons c rest =>
    unfold splitSep
    split
    · simp
    · split
      · simp
      · simp

lemma splitSep_append_sep (sep : Nat) (a b : List Nat)
    (h : ∀ c ∈ a, c ≠ sep) :
    splitSep sep (a ++ sep :: b) = a :: splitSep sep b := by
  induction a with
  | nil => simp [splitSep]
  | cons c rest ih =>
    have hc : c ≠ sep := h c (List.mem_cons_self _ _)
    have ih' := ih fun x hx => h x (List.mem_cons_of_mem _ hx)
    show splitSep sep (c :: (rest ++ sep :: b)) = (c :: rest) :: splitSep sep b
    simp only [splitSep, if_neg hc]
    rw [ih']

lemma splitSep_no_sep (sep : Nat) (l : List Nat)
    (h : ∀ c ∈ l, c ≠ sep) : splitSep sep l = [l] := by
  induction l with
  | nil => simp [splitSep]
  | cons c rest ih =>
    have hc : c ≠ sep := h c (List.mem_cons_self _ _)
    have ih' := ih fun x hx => h x (List.mem_cons_of_mem _ hx)
    simp only [splitSep, if_neg hc]
    rw [ih']

lemma wrap64Go_length_le (fuel : Nat) :
    ∀ s : List Nat, s.length ≤ fuel →
      ∀ l ∈ wrap64Go fuel s, l.length ≤ 64 := by
  induction fuel with
  | zero =>
    intro s hs l hl
    have : s = [] := List.eq_nil_of_length_eq_zero (Nat.le_zero.mp hs)
    subst this
    simp only [wrap64Go, List.mem_singleton] at hl
    subst hl
    simp
  | succ fuel ih =>
    intro s hs l hl
    unfold wrap64Go at hl
    by_cases h64 : 64 ≤ s.length
    · rw [if_pos h64] at hl
      rcases List.mem_cons.mp hl with h | h
      · subst h
        simp [List.length_take]
      · apply ih (s.drop 64) _ l h
        rw [List.length_drop]
        omega
    · rw [if_neg h64] at hl
      simp only [List.mem_singleton] at hl
      subst hl
      omega

lemma wrap64_length_le (s : List Nat) : ∀ l ∈ wrap64 s, l.length ≤ 64 :=
  wrap64Go_length_le s.length s (Nat.le_refl _)

lemma acceptTransfer_rejected (s : Stock) (t : Transfer) (f : Bool)
    (h : t.status.failures ≠ []) :
    Stock.acceptTransfer s t f =
      (Except.error (RgbError.invalidConsignment t.status), s) := by
  unfold Stock.acceptTransfer
  rw [if_pos h]

lemma acceptTransfer_warned (s : Stock) (t : Transfer) (f : Bool)
    (h1 : t.status.failures = []) (h2 : t.status.warnings ≠ [] ∧ f = false) :
    Stock.acceptTransfer s t f =
      (Except.error (RgbError.invalidConsignment t.status), s) := by
  unfold Stock.acceptTransfer
  rw [if_neg (by simp [h1]), if_pos h2]

lemma acceptTransfer_accepted (s : Stock) (t : Transfer) (f : Bool)
    (h1 : t.status.failures = [])
    (h2 : ¬(t.status.warnings ≠ [] ∧ f = false)) :
    Stock.acceptTransfer s t f = (Except.ok t.status, applyTransfer s t) := by
  unfold Stock.acceptTransfer
  rw [if_neg (by simp [h1]), if_neg h2]

/-- C1: the claim states that every successful mutating stash operation
durably persists the updated store to disk before returning, so that
afterwards the on-disk store equals the in-memory store.  The code does
the opposite: no mutating path in `src/cmds/runtime.rs` or
`src/cmds/rgb.rs` ever calls `stock.store` after `Runtime::load`, and the
`Drop` impl's persistence code is entirely commented out, so the disk
component of the system state is unchanged by every mutating operation.
Concretely, importing a fresh contract into a freshly initialized stash
succeeds, yet the on-disk store still holds the serialized empty stock,
which differs from the serialization of the in-memory stock. -/
theorem mutating_ops_never_persist :
    (∀ st id c, ((Runtime.importSchemaOp st id c).2).disk = st.disk)
    ∧ (∀ st id c, ((Runtime.importIfaceOp st id c).2).disk = st.disk)
    ∧ (∀ st id c, ((Runtime.importIfaceImplOp st id c).2).disk = st.disk)
    ∧ (∀ st id c, ((Runtime.importContractOp st id c).2).disk = st.disk)
    ∧ (∀ st t f, ((Runtime.acceptTransferOp st t f).2).disk = st.disk)
    ∧ (∀ st sec, ((Runtime.storeSealSecretOp st sec).2).disk = st.disk)
    ∧ (∀ st, Runtime.dropRuntime st = st)
    ∧ ((Runtime.importContractOp
          ⟨Stock.empty, some (serializeStock Stock.empty)⟩ 1 7).1 =
        Except.ok ()
       ∧ (Runtime.importContractOp
          ⟨Stock.empty, some (serializeStock Stock.empty)⟩ 1 7).2.disk =
        some (serializeStock Stock.empty)
       ∧ some (serializeStock ((Runtime.importContractOp
          ⟨Stock.empty, some (serializeStock Stock.empty)⟩ 1 7).2.mem)) ≠
        (Runtime.importContractOp
          ⟨Stock.empty, some (serializeStock Stock.empty)⟩ 1 7).2.disk) :=
  ⟨fun _ _ _ => rfl, fun _ _ _ => rfl, fun _ _ _ => rfl, fun _ _ _ => rfl,
   fun _ _ _ => rfl, fun _ _ => rfl, fun _ => rfl, rfl, rfl, by decide⟩

/-- C2: a transfer whose validation status contains errors is rejected by
`Runtime::accept_transfer` for either value of `force` — the non-valid
status is returned as the rejection and the system state (in-memory stash
and disk alike) is completely unchanged; `force = true` lets the caller
proceed past warnings only, never past errors. -/
theorem accept_rejects_errors_unchanged (st : DiskState) (t : Transfer)
    (force : Bool) :
    (t.status.failures ≠ [] →
      Runtime.acceptTransferOp st t force =
        (Except.error (RgbError.invalidConsignment t.status), st))
    ∧ (t.status.failures = [] →
      (Stock.acceptTransfer st.mem t true).1 = Except.ok t.status) := by
  constructor
  · intro h
    unfold Runtime.acceptTransferOp
    rw [acceptTransfer_rejected st.mem t force h]
  · intro h
    rcases hw : t.status.warnings with _ | ⟨w, ws⟩
    · rw [acceptTransfer_accepted st.mem t true h (by simp [hw])]
    · rw [acceptTransfer_accepted st.mem t true h (by simp)]

/-- Witness for C2: a transfer with one validation error is rejected with
the stash untouched even under `force = true`, and an error-free transfer
is accepted under `force = true`. -/
theorem accept_rejects_errors_unchanged_witness :
    ((⟨[], ⟨[5], []⟩⟩ : Transfer).status.failures ≠ []
     ∧ Runtime.acceptTransferOp ⟨Stock.empty, none⟩ ⟨[], ⟨[5], []⟩⟩ true =
        (Except.error (RgbError.invalidConsignment ⟨[5], []⟩),
         ⟨Stock.empty, none⟩))
    ∧ ((⟨[], ⟨[], [7]⟩⟩ : Transfer).status.failures = []
       ∧ (Stock.acceptTransfer Stock.empty ⟨[], ⟨[], [7]⟩⟩ true).1 =
          Except.ok ⟨[], [7]⟩) :=
  ⟨⟨by decide,
    (accept_rejects_errors_unchanged ⟨Stock.empty, none⟩ ⟨[], ⟨[5], []⟩⟩
      true).1 (by decide)⟩,
   ⟨rfl,
    (accept_rejects_errors_unchanged ⟨Stock.empty, none⟩ ⟨[], ⟨[], [7]⟩⟩
      true).2 rfl⟩⟩

/-- Counterexample for C3: the claim says an armored import returns a
typed `Unsupported` error.  At a concrete input the armored Import branch
panics (`todo!()`) and returns no error at all. -/
theorem unsupported_typed_error_counterexample :
    (handleImportCmd parseFail true [] ⟨Stock.empty, none⟩).1.isCrash = true
    ∧ (handleImportCmd parseFail true [] ⟨Stock.empty, none⟩).1.isErr =
        false := ⟨rfl, rfl⟩

/-- C3 (amended): every unimplemented variant — armored import, import of
a Transfer bundle, issuing an assignment of state type Void, Structured or
Attachment, inspecting with the Contractum format — fails loudly by
panicking (`todo!()`); it never silently succeeds or silently no-ops (the
state is left unchanged and the outcome is a panic), but it panics instead
of returning a typed `Unsupported` error. -/
theorem unimplemented_variants_crash_loudly :
    (∀ parse file st, handleImportCmd parse true file st = (Outcome.crash, st))
    ∧ (∀ t st,
        importBindle (UniversalBindle.transfer t) st = (Outcome.crash, st))
    ∧ (∀ avs name txid vout,
        addAssignState StateType.void avs name txid vout = Outcome.crash)
    ∧ (∀ avs name txid vout,
        addAssignState StateType.structured avs name txid vout = Outcome.crash)
    ∧ (∀ avs name txid vout,
        addAssignState StateType.attachment avs name txid vout = Outcome.crash)
    ∧ inspectRender InspectFormat.contractum = Outcome.crash :=
  ⟨fun _ _ _ => rfl, fun _ _ => rfl, fun _ _ _ _ => rfl, fun _ _ _ _ => rfl,
   fun _ _ _ _ => rfl, rfl⟩

/-- Counterexample for C4: the claim says a malformed issuance document
yields a typed recoverable `Result` error.  The concrete document `{}`
(a mapping with no `interface` key) makes the Issue branch panic via
`.expect(..)`, returning no error. -/
theorem issue_typed_error_counterexample :
    (issueIfaceName (Yaml.map [])).isCrash = true
    ∧ (issueIfaceName (Yaml.map [])).isErr = false := ⟨rfl, rfl⟩

/-- C4 (amended): every malformed issuance document — a root that is not a
mapping, a missing `interface` key, a global or assignment field name not
declared in the bound interface binding, a value failing the schema's
strict-type check, or an assignment without a `seal` key — makes the Issue
branch panic via `.expect(..)` / `panic!`, rather than returning a typed
`SchemaViolation` / `UnknownField` error. -/
theorem issue_malformed_input_panics :
    (∀ kvs, strAssoc interfaceKey kvs = none →
        issueIfaceName (Yaml.map kvs) = Outcome.crash)
    ∧ issueIfaceName Yaml.other = Outcome.crash
    ∧ (∀ impl sch tys name val, strAssoc name impl.globalIds = none →
        processGlobal impl sch tys name val = Outcome.crash)
    ∧ (∀ impl sch tys name val stId semId,
        strAssoc name impl.globalIds = some stId →
        natAssoc stId sch.globalSemIds = some semId →
        tys val semId = none →
        processGlobal impl sch tys name val = Outcome.crash)
    ∧ (∀ impl sch ps name val, strAssoc name impl.assignIds = none →
        processAssignment impl sch ps name val = Outcome.crash)
    ∧ (∀ impl sch ps name avs stId stType,
        strAssoc name impl.assignIds = some stId →
        natAssoc stId sch.ownedTypes = some stType →
        strAssoc sealKey avs = none →
        processAssignment impl sch ps name (Yaml.map avs) = Outcome.crash) := by
  refine ⟨?_, rfl, ?_, ?_, ?_, ?_⟩
  · intro kvs h
    simp [issueIfaceName, h]
  · intro impl sch tys name val h
    simp [processGlobal, h]
  · intro impl sch tys name val stId semId h1 h2 h3
    simp [processGlobal, h1, h2, h3]
  · intro impl sch ps name val h
    simp [processAssignment, h]
  · intro impl sch ps name avs stId stType h1 h2 h3
    simp [processAssignment, h1, h2, h3]

/-- Witness for C4: concrete malformed documents hitting each panic. -/
theorem issue_malformed_input_panics_witness :
    issueIfaceName (Yaml.map []) = Outcome.crash
    ∧ processGlobal implNone schSample tysNone gName Yaml.other = Outcome.crash
    ∧ processGlobal implSample schSample tysNone gName Yaml.other =
        Outcome.crash
    ∧ processAssignment implNone schSample psNone aName Yaml.other =
        Outcome.crash
    ∧ processAssignment implSample schSample psNone aName (Yaml.map []) =
        Outcome.crash :=
  ⟨issue_malformed_input_panics.1 [] rfl,
   issue_malformed_input_panics.2.2.1 implNone schSample tysNone gName
     Yaml.other rfl,
   issue_malformed_input_panics.2.2.2.1 implSample schSample tysNone gName
     Yaml.other 3 9 (by decide) rfl rfl,
   issue_malformed_input_panics.2.2.2.2.1 implNone schSample psNone aName
     Yaml.other rfl,
   issue_malformed_input_panics.2.2.2.2.2 implSample schSample psNone aName
     [] 4 StateType.fungible (by decide) rfl rfl⟩

/-- Counterexample for C5: the claim says exporting a contract in armored
form and importing the produced text file reconstructs the contract.  At a
concrete contract the import of the produced file panics (the armored
Import branch is `todo!()`), so no contract is reconstructed. -/
theorem armored_roundtrip_counterexample :
    (handleImportCmd parseFail true
        (unlines (armorExport (fun l => l) [] [1, 2, 3]))
        ⟨Stock.empty, none⟩).1.isCrash = true
    ∧ (handleImportCmd parseFail true
        (unlines (armorExport (fun l => l) [] [1, 2, 3]))
        ⟨Stock.empty, none⟩).1.isOk = false := ⟨rfl, rfl⟩

/-- C5 (amended): the armored Export branch does produce the documented
text container — the first line is the `-----BEGIN RGB CONTRACT-----`
marker, the last line is the `-----END RGB CONTRACT-----` marker, and
every base64 body line is at most 64 characters long — but the armored
importing path is unimplemented (`todo!()`), so importing the produced
text file panics for every file; the round trip can reconstruct nothing. -/
theorem armored_export_format_import_crashes :
    (∀ (b64 : List Nat → List Nat) (idl bin : List Nat),
        (armorExport b64 idl bin).head? = some beginMarker)
    ∧ (∀ (b64 : List Nat → List Nat) (idl bin : List Nat),
        (armorExport b64 idl bin).getLast? = some endMarker)
    ∧ (∀ (b64 : List Nat → List Nat) (bin : List Nat),
        ∀ l ∈ wrap64 (b64 bin), l.length ≤ 64)
    ∧ (∀ parse file st,
        handleImportCmd parse true file st = (Outcome.crash, st)) := by
  refine ⟨fun _ _ _ => rfl, ?_, fun b64 bin => wrap64_length_le (b64 bin),
    fun _ _ _ => rfl⟩
  intro b64 idl bin
  have h : armorExport b64 idl bin =
      (beginMarker :: idl :: [] :: (wrap64 (b64 bin) ++ [[]])) ++
        [endMarker] := by
    simp [armorExport]
  rw [h, List.getLast?_concat]

/-- Witness for C5: the format facts and the import panic at a concrete
exported file. -/
theorem armored_export_format_import_crashes_witness :
    (armorExport (fun l => l) [] [1, 2, 3]).head? = some beginMarker
    ∧ (armorExport (fun l => l) [] [1, 2, 3]).getLast? = some endMarker
    ∧ ([1, 2, 3] ∈ wrap64 ((fun l : List Nat => l) [1, 2, 3])
       ∧ ([1, 2, 3] : List Nat).length ≤ 64)
    ∧ handleImportCmd parseFail true [] ⟨Stock.empty, none⟩ =
        (Outcome.crash, ⟨Stock.empty, none⟩) :=
  ⟨armored_export_format_import_crashes.1 (fun l => l) [] [1, 2, 3],
   armored_export_format_import_crashes.2.1 (fun l => l) [] [1, 2, 3],
   ⟨by decide,
    armored_export_format_import_crashes.2.2.1 (fun l => l) [1, 2, 3]
      [1, 2, 3] (by decide)⟩,
   armored_export_format_import_crashes.2.2.2 parseFail [] ⟨Stock.empty, none⟩⟩

/-- C6: `accept_transfer` is idempotent.  For a transfer whose transition
identifiers are all already present in the stash, accepting it is a no-op
on the stash (so no duplicate allocation is created), and when the prior
acceptance was possible (no errors; warnings only under `force`) the prior
status is returned, not an error; in general accepting the same bundle
twice yields results identical to accepting it once. -/
theorem accept_transfer_idempotent (s : Stock) (t : Transfer) (f : Bool)
    (hid : ∀ tr ∈ t.transitions, tr.id ∈ s.transitions) :
    (Stock.acceptTransfer s t f).2 = s
    ∧ (t.status.failures = [] → (t.status.warnings = [] ∨ f = true) →
        (Stock.acceptTransfer s t f).1 = Except.ok t.status)
    ∧ Stock.acceptTransfer (Stock.acceptTransfer s t f).2 t f =
        Stock.acceptTransfer s t f := by
  refine ⟨?_, ?_, ?_⟩
  · by_cases h1 : t.status.failures = []
    · by_cases h2 : t.status.warnings ≠ [] ∧ f = false
      · rw [acceptTransfer_warned s t f h1 h2]
      · rw [acceptTransfer_accepted s t f h1 h2]
        exact applyTransfer_noop s t hid
    · rw [acceptTransfer_rejected s t f h1]
  · intro he hw
    have h2 : ¬(t.status.warnings ≠ [] ∧ f = false) := by
      rcases hw with hw | hw <;> simp [hw]
    rw [acceptTransfer_accepted s t f he h2]
  · by_cases h1 : t.status.failures = []
    · by_cases h2 : t.status.warnings ≠ [] ∧ f = false
      · have e := acceptTransfer_warned s t f h1 h2
        rw [e]
        exact e
      · have e := acceptTransfer_accepted s t f h1 h2
        rw [e]
        have e2 := acceptTransfer_accepted (applyTransfer s t) t f h1 h2
        rw [applyTransfer_idem] at e2
        exact e2
    · have e := acceptTransfer_rejected s t f h1
      rw [e]
      exact e

/-- Witness for C6: re-accepting a transfer whose single transition id 5
is already in the stash leaves the stash unchanged and returns the valid
status. -/
theorem accept_transfer_idempotent_witness :
    (∀ tr ∈ (⟨[⟨5, [(1, 2)]⟩], ⟨[], []⟩⟩ : Transfer).transitions,
        tr.id ∈ (⟨[], [], [], [], [5], [], []⟩ : Stock).transitions)
    ∧ ((Stock.acceptTransfer ⟨[], [], [], [], [5], [], []⟩
          ⟨[⟨5, [(1, 2)]⟩], ⟨[], []⟩⟩ false).2 =
        ⟨[], [], [], [], [5], [], []⟩
       ∧ ((⟨[⟨5, [(1, 2)]⟩], ⟨[], []⟩⟩ : Transfer).status.failures = [] →
          ((⟨[⟨5, [(1, 2)]⟩], ⟨[], []⟩⟩ : Transfer).status.warnings = [] ∨
            false = true) →
          (Stock.acceptTransfer ⟨[], [], [], [], [5], [], []⟩
            ⟨[⟨5, [(1, 2)]⟩], ⟨[], []⟩⟩ false).1 =
            Except.ok (⟨[⟨5, [(1, 2)]⟩], ⟨[], []⟩⟩ : Transfer).status)
       ∧ Stock.acceptTransfer
            (Stock.acceptTransfer ⟨[], [], [], [], [5], [], []⟩
              ⟨[⟨5, [(1, 2)]⟩], ⟨[], []⟩⟩ false).2
            ⟨[⟨5, [(1, 2)]⟩], ⟨[], []⟩⟩ false =
          Stock.acceptTransfer ⟨[], [], [], [], [5], [], []⟩
            ⟨[⟨5, [(1, 2)]⟩], ⟨[], []⟩⟩ false) :=
  ⟨by decide,
   accept_transfer_idempotent ⟨[], [], [], [], [5], [], []⟩
     ⟨[⟨5, [(1, 2)]⟩], ⟨[], []⟩⟩ false (by decide)⟩

/-- C7: for each of the four import kinds, importing an id already present
with identical content is a no-op — the stash and its serialized form are
unchanged — and importing an id already present with different content
fails with `Conflict`, leaving the existing item untouched. -/
theorem import_noop_or_conflict (s : Stock) (id c : Nat) :
    (natAssoc id s.schemata = some c →
      Stock.importSchema s id c = (Except.ok (), s)
      ∧ serializeStock (Stock.importSchema s id c).2 = serializeStock s)
    ∧ (∀ c', natAssoc id s.schemata = some c' → c' ≠ c →
      Stock.importSchema s id c = (Except.error RgbError.conflict, s))
    ∧ (natAssoc id s.ifaces = some c →
      Stock.importIface s id c = (Except.ok (), s)
      ∧ serializeStock (Stock.importIface s id c).2 = serializeStock s)
    ∧ (∀ c', natAssoc id s.ifaces = some c' → c' ≠ c →
      Stock.importIface s id c = (Except.error RgbError.conflict, s))
    ∧ (natAssoc id s.iimpls = some c →
      Stock.importIfaceImpl s id c = (Except.ok (), s)
      ∧ serializeStock (Stock.importIfaceImpl s id c).2 = serializeStock s)
    ∧ (∀ c', natAssoc id s.iimpls = some c' → c' ≠ c →
      Stock.importIfaceImpl s id c = (Except.error RgbError.conflict, s))
    ∧ (natAssoc id s.contracts = some c →
      Stock.importContract s id c = (Except.ok (), s)
      ∧ serializeStock (Stock.importContract s id c).2 = serializeStock s)
    ∧ (∀ c', natAssoc id s.contracts = some c' → c' ≠ c →
      Stock.importContract s id c = (Except.error RgbError.conflict, s)) := by
  refine ⟨?_, ?_, ?_, ?_, ?_, ?_, ?_, ?_⟩
  · intro h
    have he : Stock.importSchema s id c = (Except.ok (), s) := by
      simp [Stock.importSchema, importEntry, h]
    exact ⟨he, by rw [he]⟩
  · intro c' h hne
    simp [Stock.importSchema, importEntry, h, hne]
  · intro h
    have he : Stock.importIface s id c = (Except.ok (), s) := by
      simp [Stock.importIface, importEntry, h]
    exact ⟨he, by rw [he]⟩
  · intro c' h hne
    simp [Stock.importIface, importEntry, h, hne]
  · intro h
    have he : Stock.importIfaceImpl s id c = (Except.ok (), s) := by
      simp [Stock.importIfaceImpl, importEntry, h]
    exact ⟨he, by rw [he]⟩
  · intro c' h hne
    simp [Stock.importIfaceImpl, importEntry, h, hne]
  · intro h
    have he : Stock.importContract s id c = (Except.ok (), s) := by
      simp [Stock.importContract, importEntry, h]
    exact ⟨he, by rw [he]⟩
  · intro c' h hne
    simp [Stock.importContract, importEntry, h, hne]

/-- Witness for C7: on a stash holding schema 1, interface 2,
implementation 3 and contract 4 (all with content 9), re-importing with
identical content is a no-op and importing different content 8 is a
`Conflict` that leaves the stash unchanged. -/
theorem import_noop_or_conflict_witness :
    (Stock.importSchema ⟨[(1, 9)], [(2, 9)], [(3, 9)], [(4, 9)], [], [], []⟩
        1 9 = (Except.ok (), ⟨[(1, 9)], [(2, 9)], [(3, 9)], [(4, 9)], [], [], []⟩)
     ∧ serializeStock (Stock.importSchema
        ⟨[(1, 9)], [(2, 9)], [(3, 9)], [(4, 9)], [], [], []⟩ 1 9).2 =
        serializeStock ⟨[(1, 9)], [(2, 9)], [(3, 9)], [(4, 9)], [], [], []⟩)
    ∧ Stock.importSchema ⟨[(1, 9)], [(2, 9)], [(3, 9)], [(4, 9)], [], [], []⟩
        1 8 = (Except.error RgbError.conflict,
               ⟨[(1, 9)], [(2, 9)], [(3, 9)], [(4, 9)], [], [], []⟩)
    ∧ (Stock.importIface ⟨[(1, 9)], [(2, 9)], [(3, 9)], [(4, 9)], [], [], []⟩
        2 9 = (Except.ok (), ⟨[(1, 9)], [(2, 9)], [(3, 9)], [(4, 9)], [], [], []⟩)
       ∧ serializeStock (Stock.importIface
        ⟨[(1, 9)], [(2, 9)], [(3, 9)], [(4, 9)], [], [], []⟩ 2 9).2 =
        serializeStock ⟨[(1, 9)], [(2, 9)], [(3, 9)], [(4, 9)], [], [], []⟩)
    ∧ Stock.importIface ⟨[(1, 9)], [(2, 9)], [(3, 9)], [(4, 9)], [], [], []⟩
        2 8 = (Except.error RgbError.conflict,
               ⟨[(1, 9)], [(2, 9)], [(3, 9)], [(4, 9)], [], [], []⟩)
    ∧ (Stock.importIfaceImpl
        ⟨[(1, 9)], [(2, 9)], [(3, 9)], [(4, 9)], [], [], []⟩ 3 9 =
        (Except.ok (), ⟨[(1, 9)], [(2, 9)], [(3, 9)], [(4, 9)], [], [], []⟩)
       ∧ serializeStock (Stock.importIfaceImpl
        ⟨[(1, 9)], [(2, 9)], [(3, 9)], [(4, 9)], [], [], []⟩ 3 9).2 =
        serializeStock ⟨[(1, 9)], [(2, 9)], [(3, 9)], [(4, 9)], [], [], []⟩)
    ∧ Stock.importIfaceImpl
        ⟨[(1, 9)], [(2, 9)], [(3, 9)], [(4, 9)], [], [], []⟩ 3 8 =
        (Except.error RgbError.conflict,
         ⟨[(1, 9)], [(2, 9)], [(3, 9)], [(4, 9)], [], [], []⟩)
    ∧ (Stock.importContract
        ⟨[(1, 9)], [(2, 9)], [(3, 9)], [(4, 9)], [], [], []⟩ 4 9 =
        (Except.ok (), ⟨[(1, 9)], [(2, 9)], [(3, 9)], [(4, 9)], [], [], []⟩)
       ∧ serializeStock (Stock.importContract
        ⟨[(1, 9)], [(2, 9)], [(3, 9)], [(4, 9)], [], [], []⟩ 4 9).2 =
        serializeStock ⟨[(1, 9)], [(2, 9)], [(3, 9)], [(4, 9)], [], [], []⟩)
    ∧ Stock.importContract
        ⟨[(1, 9)], [(2, 9)], [(3, 9)], [(4, 9)], [], [], []⟩ 4 8 =
        (Except.error RgbError.conflict,
         ⟨[(1, 9)], [(2, 9)], [(3, 9)], [(4, 9)], [], [], []⟩) :=
  ⟨(import_noop_or_conflict ⟨[(1, 9)], [(2, 9)], [(3, 9)], [(4, 9)], [], [], []⟩
      1 9).1 rfl,
   (import_noop_or_conflict ⟨[(1, 9)], [(2, 9)], [(3, 9)], [(4, 9)], [], [], []⟩
      1 8).2.1 9 rfl (by decide),
   (import_noop_or_conflict ⟨[(1, 9)], [(2, 9)], [(3, 9)], [(4, 9)], [], [], []⟩
      2 9).2.2.1 rfl,
   (import_noop_or_conflict ⟨[(1, 9)], [(2, 9)], [(3, 9)], [(4, 9)], [], [], []⟩
      2 8).2.2.2.1 9 rfl (by decide),
   (import_noop_or_conflict ⟨[(1, 9)], [(2, 9)], [(3, 9)], [(4, 9)], [], [], []⟩
      3 9).2.2.2.2.1 rfl,
   (import_noop_or_conflict ⟨[(1, 9)], [(2, 9)], [(3, 9)], [(4, 9)], [], [], []⟩
      3 8).2.2.2.2.2.1 9 rfl (by decide),
   (import_noop_or_conflict ⟨[(1, 9)], [(2, 9)], [(3, 9)], [(4, 9)], [], [], []⟩
      4 9).2.2.2.2.2.2.1 rfl,
   (import_noop_or_conflict ⟨[(1, 9)], [(2, 9)], [(3, 9)], [(4, 9)], [], [], []⟩
      4 8).2.2.2.2.2.2.2 9 rfl (by decide)⟩

/-- C8: `Runtime::load` with no store file initializes the empty store and
persists it to disk before returning; with an existing file it
deserializes it, and a deserialization failure is returned as a fatal
error — the empty store is never silently substituted for a corrupt
file. -/
theorem load_init_or_propagate (deser : List Nat → Except RgbError Stock)
    (b : List Nat) (s : Stock) (e : RgbError) :
    Runtime.load deser none =
      Except.ok { mem := Stock.empty, disk := some (serializeStock Stock.empty) }
    ∧ (deser b = Except.error e →
        Runtime.load deser (some b) = Except.error e)
    ∧ (deser b = Except.ok s →
        Runtime.load deser (some b) = Except.ok { mem := s, disk := some b }) := by
  refine ⟨rfl, ?_, ?_⟩ <;> intro h <;> simp [Runtime.load, h]

/-- Witness for C8: with a sample deserializer accepting only the empty
byte list, loading a missing file initializes-and-persists, loading the
byte list `[1]` propagates the `Corrupt` error, and loading `[]`
succeeds. -/
theorem load_init_or_propagate_witness :
    Runtime.load deserSample none =
      Except.ok { mem := Stock.empty, disk := some (serializeStock Stock.empty) }
    ∧ Runtime.load deserSample (some [1]) = Except.error RgbError.corrupt
    ∧ Runtime.load deserSample (some []) =
        Except.ok { mem := Stock.empty, disk := some [] } :=
  ⟨(load_init_or_propagate deserSample [1] Stock.empty RgbError.corrupt).1,
   (load_init_or_propagate deserSample [1] Stock.empty RgbError.corrupt).2.1
     rfl,
   (load_init_or_propagate deserSample [] Stock.empty RgbError.corrupt).2.2
     rfl⟩

/-- C9: the invoice string encodes all four fields — contract id,
interface name, amount, beneficiary seal — and parsing it back reproduces
all four, in particular the identical beneficiary seal reference.
Interface names are identifiers, so they never contain the separator
character. -/
theorem invoice_roundtrip (contractId amount bseal : Nat)
    (ifaceName : List Nat) (h : ∀ c ∈ ifaceName, c ≠ sepCode) :
    parseInvoice (buildInvoice contractId ifaceName amount bseal) =
      some (contractId, ifaceName, amount, bseal) := by
  unfold parseInvoice buildInvoice
  rw [splitSep_append_sep sepCode _ _ (natChars_no_sep contractId),
    splitSep_append_sep sepCode _ _ h,
    splitSep_append_sep sepCode _ _ (natChars_no_sep amount),
    splitSep_no_sep sepCode _ (natChars_no_sep bseal)]
  simp [charsNat_natChars]

/-- Witness for C9: a concrete invoice round-trips. -/
theorem invoice_roundtrip_witness :
    (∀ c ∈ ([82, 71, 66] : List Nat), c ≠ sepCode)
    ∧ parseInvoice (buildInvoice 12 [82, 71, 66] 1000 77) =
        some (12, [82, 71, 66], 1000, 77) :=
  ⟨by decide, invoice_roundtrip 12 1000 77 [82, 71, 66] (by decide)⟩

/-- C10: the key Generate branch never rejects its word-count argument:
input 12 produces a 12-word mnemonic, and every other input — including
values outside the documented set, such as 13 or 0 — silently produces a
24-word mnemonic instead of an error. -/
theorem generate_word_count_never_rejected (n : Nat) (h : n ≠ 12) :
    generatedMnemonicWords 12 = 12
    ∧ generatedMnemonicWords n = 24
    ∧ generatedMnemonicWords 13 = 24
    ∧ generatedMnemonicWords 0 = 24 := by
  refine ⟨rfl, ?_, rfl, rfl⟩
  unfold generatedMnemonicWords mnemonicTypeFor
  split
  · omega
  · rfl

/-- Witness for C10: the concrete inputs 12, 13 and 0. -/
theorem generate_word_count_never_rejected_witness :
    (13 ≠ 12)
    ∧ (generatedMnemonicWords 12 = 12
       ∧ generatedMnemonicWords 13 = 24
       ∧ generatedMnemonicWords 13 = 24
       ∧ generatedMnemonicWords 0 = 24) :=
  ⟨by decide, generate_word_count_never_rejected 13 (by decide)⟩
